import Mathlib

/-!
Verification of the plan-driven orchestration engine of the multi-agent
customer-service repository.

The source under scrutiny:
  * `agents/router_agent.py` — two implementations: a plan-driven reference
    implementation (kept in the file inside a module-level string literal,
    lines 1–444) and the active LLM-delegation implementation (lines 451–632).
  * `agents/data_agent.py` — the active `CustomerDataAgent.handle` tool loop.
  * `agents/support_agent.py` — reference `SupportAgent` (string literal)
    and the active LLM-backed `SupportAgent`.
  * `client/mcp_client.py` — `call_tool_sync`, modeled as an oracle that can
    fail (a raised exception is an `Except.error`).
  * `mcp_server/db_access.py` — `update_customer`.

External collaborators (the planner LLM, the MCP transport, the SQLite store)
are modeled as parameters/oracles; the Python values they exchange are modeled
by a JSON-like `Value` type, with Python truthiness, `dict.get`, `x or d`,
`str()`/`repr()` rendering and `bool`-is-an-`int` coercion reproduced
explicitly.
-/

namespace CustomerService

/-- JSON-like model of the Python values exchanged between the agents:
`None`, `bool`, `int`, `str`, `list`, `dict` (string keys, insertion order). -/
inductive Value where
  | vnull : Value
  | vbool : Bool → Value
  | vint : Int → Value
  | vstr : String → Value
  | vlist : List Value → Value
  | vobj : List (String × Value) → Value

/-- Python truthiness (`bool(x)`): `None`, `False`, `0`, `""`, `[]`, `{}` are
falsy, everything else is truthy. -/
def Value.truthy : Value → Bool
  | .vnull => false
  | .vbool b => b
  | .vint n => !(n == 0)
  | .vstr s => !(s.data.isEmpty)
  | .vlist xs => !(xs.isEmpty)
  | .vobj kvs => !(kvs.isEmpty)

/-- Key lookup in an association list (first match; the dictionaries produced
by `json.loads` have unique keys). -/
def lookupPairs : List (String × Value) → String → Option Value
  | [], _ => none
  | (k', v) :: kvs, k => if k' = k then some v else lookupPairs kvs k

/-- Dict indexing `v[k]` / key membership for dict values; `none` on non-dicts. -/
def Value.lookup : Value → String → Option Value
  | .vobj kvs, k => lookupPairs kvs k
  | _, _ => none

/-- Python `d.get(k, default)` on a dict value (callers in the modeled code
apply `.get` to dicts only; the `AttributeError` raised on truthy non-dict
argument maps is modeled separately by `getArg`). -/
def pyGet (v : Value) (k : String) (d : Value) : Value :=
  (v.lookup k).getD d

/-- Python `x or d`: the left operand if truthy, else the default. -/
def pyOrDefault (v d : Value) : Value :=
  if v.truthy then v else d

mutual

/-- Python `repr()` of a value (`str` values quoted, containers rendered
recursively). The exact text is opaque to every property stated below. -/
def pyRepr : Value → String
  | .vnull => "None"
  | .vbool true => "True"
  | .vbool false => "False"
  | .vint n => toString n
  | .vstr s => "\x27" ++ s ++ "\x27"
  | .vlist xs => "[" ++ String.intercalate ", " (pyReprList xs) ++ "]"
  | .vobj kvs => "\x7b" ++ String.intercalate ", " (pyReprObj kvs) ++ "\x7d"

/-- Rendering of the elements of a list, `repr()`-style. -/
def pyReprList : List Value → List String
  | [] => []
  | v :: vs => pyRepr v :: pyReprList vs

/-- Rendering of the entries of a dict, `repr()`-style. -/
def pyReprObj : List (String × Value) → List String
  | [] => []
  | (k, v) :: kvs => ("\x27" ++ k ++ "\x27: " ++ pyRepr v) :: pyReprObj kvs

end

/-- Python `str()`: identity on strings, `repr`-like elsewhere (as used by
f-string interpolation in the source). -/
def pyStr : Value → String
  | .vstr s => s
  | v => pyRepr v

/-- Accumulating digit parser behind `digitsToNat` (kernel-reducible
replacement for `String.toNat?`). -/
def digitsToNatGo : List Char → Nat → Option Nat
  | [], acc => some acc
  | c :: cs, acc =>
    if c.isDigit then digitsToNatGo cs (acc * 10 + (c.toNat - 48)) else none

/-- Value of a digit-only, non-empty character list (the semantics of
`int(s)` after `s.isdigit()` succeeded, for ASCII digits); `none` otherwise. -/
def digitsToNat : List Char → Option Nat
  | [] => none
  | cs => digitsToNatGo cs 0

/-- Check that one character list begins with another. -/
def startsWithChars : List Char → List Char → Bool
  | _, [] => true
  | [], _ :: _ => false
  | c :: cs, d :: ds => c = d && startsWithChars cs ds

/-- Containment of one character list in another (Python `sub in s` for
strings). -/
def containsChars : List Char → List Char → Bool
  | [], needle => needle.isEmpty
  | c :: t, needle => startsWithChars (c :: t) needle || containsChars t needle

/-- Python substring membership `sub in s`. -/
def strContains (s sub : String) : Bool :=
  containsChars s.data sub.data

/-- Decimal value of a Unicode decimal digit (category `Nd`), the characters
`int(...)` accepts. The repertoire is a representative set of `Nd` blocks —
ASCII, Arabic-Indic, Extended Arabic-Indic, Devanagari, Bengali, Thai,
Fullwidth; characters outside it are modeled as non-digits, and every
concrete statement below uses characters inside it. -/
def decDigitVal? (c : Char) : Option Nat :=
  let n := c.toNat
  if 48 ≤ n && n ≤ 57 then some (n - 48)
  else if 0x660 ≤ n && n ≤ 0x669 then some (n - 0x660)
  else if 0x6F0 ≤ n && n ≤ 0x6F9 then some (n - 0x6F0)
  else if 0x966 ≤ n && n ≤ 0x96F then some (n - 0x966)
  else if 0x9E6 ≤ n && n ≤ 0x9EF then some (n - 0x9E6)
  else if 0xE50 ≤ n && n ≤ 0xE59 then some (n - 0xE50)
  else if 0xFF10 ≤ n && n ≤ 0xFF19 then some (n - 0xFF10)
  else none

/-- Characters for which Python `str.isdigit()` is true although `int(...)`
rejects them (Unicode `Numeric_Type=Digit` without a decimal value):
superscript and subscript digits. -/
def digitNotDecimal (c : Char) : Bool :=
  let n := c.toNat
  n == 0xB2 || n == 0xB3 || n == 0xB9 ||
    n == 0x2070 || (0x2074 ≤ n && n ≤ 0x2079) ||
    (0x2080 ≤ n && n ≤ 0x2089)

/-- Python `str.isdigit()` on one character (over the modeled repertoire). -/
def isdigitChar (c : Char) : Bool :=
  (decDigitVal? c).isSome || digitNotDecimal c

/-- Accumulating decimal parser behind `pyIntDecimal`. -/
def decDigitsGo : List Char → Nat → Option Nat
  | [], acc => some acc
  | c :: cs, acc =>
    match decDigitVal? c with
    | some d => decDigitsGo cs (acc * 10 + d)
    | none => none

/-- Python `int(s)` on a non-empty all-`isdigit` string: the value when
every character is a decimal digit, `none` (`ValueError`) otherwise. -/
def pyIntDecimal : List Char → Option Nat
  | [] => none
  | cs => decDigitsGo cs 0

/-- Outcome of `RouterAgent._parse_customer_id`: a coerced integer, a
`None` return (the caller's skip path), or a `ValueError` raised by
`int(...)` that propagates out of the executor. -/
inductive IdParse where
  | valid (n : Int)
  | invalid
  | raise (e : String)

/-- Model of `RouterAgent._parse_customer_id` (plan-driven reference
implementation, `router_agent.py`): a Python `int` is returned as-is (a
`bool` is an `int` in Python: `True ↦ 1`, `False ↦ 0`); a string passing
`str.isdigit()` is given to `int(...)`, which coerces it when every
character is a decimal digit of any script and raises `ValueError`
otherwise (for digit-but-not-decimal characters such as superscripts);
anything else yields `None`. -/
def parseCustomerId : Value → IdParse
  | .vint n => .valid n
  | .vbool b => .valid (if b then 1 else 0)
  | .vstr s =>
    if !(s.data.isEmpty) && s.data.all isdigitChar then
      match pyIntDecimal s.data with
      | some n => .valid (Int.ofNat n)
      | none => .raise "ValueError: invalid literal for int() with base 10"
    else .invalid
  | _ => .invalid

/-- One directed message of the A2A trace log: the dictionaries
`\x7b"from": ..., "to": ..., "content": ...\x7d` accumulated in `messages`. -/
structure TraceEntry where
  sender : String
  recipient : String
  content : String
  deriving DecidableEq, Repr

/-- Model of `plan.get(key, default) or default` for a string-valued field of the
planner output (`data_instruction`, `support_instruction`, `note`): a truthy
value is kept (rendered with `str()` when it is not a string, as the f-strings
downstream would), a falsy or missing one becomes the default. -/
def pyStrField (plan : Value) (k : String) (d : String) : String :=
  let v := pyGet plan k (.vstr d)
  if v.truthy then pyStr v else d

/-- Model of `if not isinstance(plan, dict): plan = \x7b\x7d` — the shape guard both
active agents apply to the parsed LLM output. -/
def dictify (plan : Value) : Value :=
  match plan with
  | .vobj kvs => .vobj kvs
  | _ => .vobj []

/-!
### Active `CustomerDataAgent.handle` (`agents/data_agent.py`, lines 81–158)

The LLM plan (already parsed by `ask_llm_json`, which itself never raises:
it returns `\x7b\x7d` when it cannot parse) is a parameter. `call_tool_sync`
is the oracle; a raised exception is `Except.error` and — exactly as in the
source, which has no `try`/`except` around the loop — it propagates.
-/

/-- The MCP capability boundary: `call_tool_sync(tool, arguments)`. The first
argument is the step's `tool` value as supplied by the LLM (the source never
checks it is a string). An `Except.error` models a raised exception. -/
def ToolOracle : Type := Value → Value → Except String Value

/-- One executed tool call as recorded in `results`:
`\x7b"tool": ..., "args": ..., "result": ...\x7d`. -/
structure ToolRecord where
  tool : Value
  args : Value
  result : Value

/-- Proof instrumentation: one invocation of `call_tool_sync` (tool name and
arguments, in invocation order). -/
structure ToolCall where
  tool : Value
  args : Value

/-- The per-step guard of the tool loop: skip a step that is not a dict
(`isinstance` check) or whose `tool` is falsy; otherwise return the tool
together with `step.get("args", \x7b\x7d) or \x7b\x7d`. -/
def stepToolArgs (step : Value) : Option (Value × Value) :=
  match step with
  | .vobj _ =>
    let tool := pyGet step "tool" .vnull
    if tool.truthy then
      some (tool, pyOrDefault (pyGet step "args" (.vobj [])) (.vobj []))
    else
      none
  | _ => none

/-- The tool loop of `CustomerDataAgent.handle`: one `call_tool_sync`
invocation per surviving step, in order, never retried; a raised exception
propagates. Returns the `results` list together with the invocation log. -/
def execTools (oracle : ToolOracle) : List Value → Except String (List ToolRecord × List ToolCall)
  | [] => .ok ([], [])
  | step :: rest =>
    match stepToolArgs step with
    | none => execTools oracle rest
    | some (tool, args) => do
      let result ← oracle tool args
      let (recs, calls) ← execTools oracle rest
      .ok (⟨tool, args, result⟩ :: recs, ⟨tool, args⟩ :: calls)

/-- Model of `plan.get("steps", []) or []`. -/
def stepsOf (plan : Value) : Value :=
  pyOrDefault (pyGet plan "steps" (.vlist [])) (.vlist [])

/-- Python iteration `for step in steps` over an arbitrary value: lists yield
their elements, strings their characters, dicts their keys; iterating an
`int` or `bool` raises `TypeError` (falsy values never reach this point —
`or []` replaced them). -/
def iterSteps : Value → Except String (List Value)
  | .vlist xs => .ok xs
  | .vstr s => .ok (s.data.map (fun c => .vstr (String.mk [c])))
  | .vobj kvs => .ok (kvs.map (fun kv => .vstr kv.1))
  | _ => .error "TypeError: object is not iterable"

/-- Return value of the active `CustomerDataAgent.handle`
(`\x7b"note", "results", "messages"\x7d`), plus the instrumentation log of
`call_tool_sync` invocations. -/
structure HandleResult where
  note : String
  results : List ToolRecord
  messages : List TraceEntry
  calls : List ToolCall

/-- Active `CustomerDataAgent.handle` (`data_agent.py`): take the LLM plan
(`dataPlan`, a parameter standing for the `ask_llm_json` result on the
payload built from `userQuery`/`instruction`/`messages`), execute the
planned tool calls, then append the note (if non-empty) to the messages. -/
def handle (oracle : ToolOracle) (dataPlan : Value) (userQuery : String)
    (messages : List TraceEntry) (instruction : String) : Except String HandleResult :=
  let _ := userQuery
  let _ := instruction
  let plan := dictify dataPlan
  let note := pyStrField plan "note" ""
  do
    let steps ← iterSteps (stepsOf plan)
    let (results, calls) ← execTools oracle steps
    let messages' :=
      if note ≠ "" then
        messages ++ [⟨"CustomerDataAgent", "RouterAgent", note⟩]
      else messages
    .ok ⟨note, results, messages', calls⟩

/-!
### Active `RouterAgent.run` (`agents/router_agent.py`, lines 549–632)

The router LLM's parsed delegation decision (`routerPlan`), the data agent
LLM's parsed tool plan (`dataPlan`) and the support LLM's final text
(`supportAnswer`) are parameters; `route(query)` simply forwards to `run`.
-/

/-- The `\x7b"answer": ..., "log": messages, "state": \x7b"messages": messages\x7d\x7d`
result of the active `RouterAgent.run` (`log` and `state.messages` are the
same list; one field models both). -/
structure RunResult where
  answer : String
  log : List TraceEntry

/-- Active `RouterAgent.run`: record the user receipt entry, read the
delegation plan (`need_data` defaults to `True`, instructions default to
fixed texts), optionally call the data agent, then the support agent, and
return the answer with the full trace. A failure inside a capability call
propagates (there is no `try`/`except` anywhere on this path). -/
def run (routerPlan dataPlan : Value) (supportAnswer : String)
    (oracle : ToolOracle) (query : String) : Except String RunResult :=
  let messages0 : List TraceEntry := [⟨"User", "RouterAgent", query⟩]
  let plan := dictify routerPlan
  let needData := (pyGet plan "need_data" (.vbool true)).truthy
  let dataInstruction := pyStrField plan "data_instruction" ""
  let supportInstruction := pyStrField plan "support_instruction" ""
  do
    let messages1 ←
      if needData then do
        let msgs := messages0 ++
          [⟨"RouterAgent", "CustomerDataAgent",
            if dataInstruction ≠ "" then dataInstruction
            else "Handle this user request using MCP tools."⟩]
        let out ← handle oracle dataPlan query msgs
          (if dataInstruction ≠ "" then dataInstruction else query)
        pure out.messages
      else
        pure messages0
    let messages2 := messages1 ++
      [⟨"RouterAgent", "SupportAgent",
        if supportInstruction ≠ "" then supportInstruction
        else "Generate the final answer for the user."⟩]
    let messages3 := messages2 ++
      [⟨"SupportAgent", "RouterAgent", "Returned final user answer."⟩]
    .ok ⟨supportAnswer, messages3⟩

/-!
### Plan-driven reference implementation
(`router_agent.py` lines 1–444 and `support_agent.py` lines 2–136, the
implementations kept in the module-level string literals)

The reference `RouterAgent.run` obtains a step plan
`\x7b"steps": [\x7b"agent", "action", "args"\x7d, ...]\x7d`, validates its
shape, and executes the steps in order, dispatching on the `(agent, action)`
pair. The reference `CustomerDataAgent`'s data methods are not present in
the source (only this caller is); their results are an oracle.
-/

/-- Python `x == "s"` where `x` is an arbitrary value: true exactly for the
equal string. -/
def Value.eqStr (v : Value) (s : String) : Bool :=
  match v with
  | .vstr t => t = s
  | _ => false

/-- Python `args.get(k, d)`: succeeds on dicts; a truthy non-dict `args`
raises `AttributeError` (falsy ones were replaced by `\x7b\x7d` upstream). -/
def getArg (args : Value) (k : String) (d : Value) : Except String Value :=
  match args with
  | .vobj _ => .ok (pyGet args k d)
  | _ => .error "AttributeError: get"

/-- Model of `limit if isinstance(limit, int) else 20` (a Python `bool` is an `int`). -/
def pyIntIsinst (v : Value) (d : Int) : Int :=
  match v with
  | .vint n => n
  | .vbool b => if b then 1 else 0
  | _ => d

/-- Model of `c.get(k, default)` rendered into an f-string, for a customer/ticket row. -/
def fieldStr (c : List (String × Value)) (k d : String) : String :=
  match lookupPairs c k with
  | some v => pyStr v
  | none => d

/-- Reference `SupportAgent.summarize_customer`: expects
`\x7b"customer": row\x7d`; any falsy input, missing key, `None` or non-dict
row yields `"Customer not found."`. Inputs on which Python's membership test
would itself raise (truthy non-dict, non-string values) are outside the
modeled domain and also map to `"Customer not found."`; no stated property
inspects this text. -/
def refSummarizeCustomer (customer : Value) : String :=
  match customer with
  | .vobj kvs =>
    match lookupPairs kvs "customer" with
    | some (.vobj c) =>
      "Customer " ++ fieldStr c "name" "Unknown" ++ " (ID " ++
        fieldStr c "id" "Unknown" ++ ")\n- Email: " ++ fieldStr c "email" "N/A" ++
        "\n- Phone: " ++ fieldStr c "phone" "N/A" ++ "\n- Status: " ++
        fieldStr c "status" "N/A" ++ "\n"
    | _ => "Customer not found."
  | _ => "Customer not found."

/-- One line of the reference `summarize_customers` listing (rows that are
not dicts would raise in Python; modeled with the defaults, text opaque). -/
def custLine (c : Value) : String :=
  match c with
  | .vobj kvs =>
    "- ID " ++ fieldStr kvs "id" "Unknown" ++ ": " ++ fieldStr kvs "name" "Unknown" ++
      " | " ++ fieldStr kvs "email" "N/A" ++ " | " ++ fieldStr kvs "status" "N/A"
  | _ => "- ID Unknown: Unknown | N/A | N/A"

/-- Reference `SupportAgent.summarize_customers`: accepts
`\x7b"customers": [...]\x7d` or a plain list; a falsy list yields
`"No customers found."`. -/
def refSummarizeCustomers (customers status : Value) : String :=
  let customerList :=
    match customers with
    | .vobj kvs =>
      match lookupPairs kvs "customers" with
      | some v => v
      | none => customers
    | _ => customers
  if customerList.truthy then
    let header := "Customer List" ++
      (if status.truthy then " (status=" ++ pyStr status ++ ")" else "") ++ ":"
    match customerList with
    | .vlist xs => String.intercalate "\n" (header :: xs.map custLine)
    | _ => header
  else
    "No customers found."

/-- One line of the reference `summarize_tickets` listing. -/
def ticketLine (t : Value) : String :=
  match t with
  | .vobj kvs =>
    "- #" ++ fieldStr kvs "id" "Unknown" ++ " | " ++ fieldStr kvs "issue" "N/A" ++
      " | " ++ fieldStr kvs "status" "N/A" ++ " | " ++ fieldStr kvs "priority" "N/A" ++
      " | " ++ fieldStr kvs "created_at" "N/A"
  | _ => "- #Unknown | N/A | N/A | N/A | N/A"

/-- Reference `SupportAgent.summarize_tickets`: expects
`\x7b"tickets": [...]\x7d`; a falsy input, missing key or empty list yields
`"No ticket history found."`. -/
def refSummarizeTickets (history : Value) : String :=
  match history with
  | .vobj kvs =>
    match lookupPairs kvs "tickets" with
    | some t =>
      if t.truthy then
        match t with
        | .vlist xs => String.intercalate "\n" ("Ticket History:" :: xs.map ticketLine)
        | _ => "Ticket History:"
      else "No ticket history found."
    | none => "No ticket history found."
  | _ => "No ticket history found."

/-- The `cleaned = [p for p in parts if p]` comprehension of the reference
`build_final_answer`: the fragments that are non-empty (truthy). -/
def cleanedParts (parts : List String) : List String :=
  parts.filter (fun p => p ≠ "")

/-- Reference `SupportAgent.build_final_answer` — the Response capability's
terminating operation: drop falsy (empty) fragments; if nothing remains,
return the canned no-information message, else join with newlines. -/
def refBuildFinalAnswer (parts : List String) : String :=
  if (cleanedParts parts).isEmpty then
    "I could not find any relevant information for your request."
  else
    String.intercalate "\n" (cleanedParts parts)

/-- The data-capability boundary of the reference implementation
(`self.data.get_customer(...)` etc.; these methods are not in the source —
their results are an oracle, total here since no stated property concerns
their failure). -/
structure RefOracle where
  get_customer : Int → Value
  update_customer : Int → Value → Value
  get_history : Int → Value
  create_ticket : Int → Value → Value → Value
  list_customers : Value → Int → Value
  handle_query : Value → Value

/-- Proof instrumentation: one external capability call made by the
reference step executor. -/
inductive RefCall where
  | getCustomer (id : Int)
  | updateCustomer (id : Int) (fields : Value)
  | getHistory (id : Int)
  | createTicket (id : Int) (issue pri : Value)
  | listCustomers (status : Value) (limit : Int)
  | handleQuery (q : Value)

/-- State threaded through the reference step loop: the A2A trace, the
accumulated answer fragments (`answer_chunks`), and the instrumentation log
of capability calls. -/
structure RefState where
  messages : List TraceEntry
  chunks : List String
  calls : List RefCall

/-- Outcome of executing one step: continue with the next step, or
return from `run` (the `final_answer` branch). -/
inductive RefStepOut where
  | cont (st : RefState)
  | done (st : RefState) (answer : String)

/-- The state carried by either outcome. -/
def RefStepOut.state : RefStepOut → RefState
  | .cont st => st
  | .done st _ => st

/-- Model of `step.get("args", \x7b\x7d) or \x7b\x7d` of a step dict. -/
def argsOf (step : Value) : Value :=
  pyOrDefault (pyGet step "args" (.vobj [])) (.vobj [])

/-- The reference step executor: the body of the
`for step in plan["steps"]` loop of the reference `RouterAgent.run`,
dispatching on the `(agent, action)` pair. A step that is not a dict raises
(`AttributeError` on `.get`); every recognized and every unknown pair is
handled without raising. -/
def refStep (o : RefOracle) (query : String) (st : RefState) (step : Value) :
    Except String RefStepOut :=
  match step with
  | .vobj _ =>
    let agent := pyGet step "agent" .vnull
    let action := pyGet step "action" .vnull
    let args := argsOf step
    if agent.eqStr "data" then
      if action.eqStr "get_customer" then do
        let rawId ← getArg args "id" .vnull
        match parseCustomerId rawId with
        | .raise e => .error e
        | .invalid =>
          .ok (.cont ⟨st.messages ++
            [⟨"RouterAgent", "CustomerDataAgent",
              "Attempted get_customer without a valid numeric ID – step skipped"⟩],
            st.chunks ++
              ["I could not look up a specific customer because the ID was not valid."],
            st.calls⟩)
        | .valid cid =>
          .ok (.cont ⟨st.messages ++
            [⟨"RouterAgent", "CustomerDataAgent", "get_customer(id=" ++ toString cid ++ ")"⟩,
             ⟨"CustomerDataAgent", "RouterAgent", "returned customer record"⟩],
            st.chunks ++ [refSummarizeCustomer (o.get_customer cid)],
            st.calls ++ [.getCustomer cid]⟩)
      else if action.eqStr "update_customer" then do
        let rawId ← getArg args "id" .vnull
        match parseCustomerId rawId with
        | .raise e => .error e
        | .invalid =>
          .ok (.cont ⟨st.messages ++
            [⟨"RouterAgent", "CustomerDataAgent",
              "Attempted update_customer without a valid numeric ID – step skipped"⟩],
            st.chunks ++ ["Could not update customer because the ID was not valid."],
            st.calls⟩)
        | .valid cid => do
          let fields ← getArg args "fields" (.vobj [])
          let fields := pyOrDefault fields (.vobj [])
          .ok (.cont ⟨st.messages ++
            [⟨"RouterAgent", "CustomerDataAgent",
              "update_customer(id=" ++ toString cid ++ ", fields=" ++ pyStr fields ++ ")"⟩,
             ⟨"CustomerDataAgent", "RouterAgent", "customer updated"⟩],
            st.chunks ++
              ["Updated customer " ++ toString cid ++ " with fields: " ++ pyStr fields],
            st.calls ++ [.updateCustomer cid fields]⟩)
      else if action.eqStr "get_history" then do
        let rawId ← getArg args "id" .vnull
        match parseCustomerId rawId with
        | .raise e => .error e
        | .invalid =>
          .ok (.cont ⟨st.messages ++
            [⟨"RouterAgent", "CustomerDataAgent",
              "Attempted get_history without a valid numeric ID – step skipped"⟩],
            st.chunks ++
              ["Could not fetch ticket history because the customer ID was not valid."],
            st.calls⟩)
        | .valid cid =>
          .ok (.cont ⟨st.messages ++
            [⟨"RouterAgent", "CustomerDataAgent",
              "get_customer_history(id=" ++ toString cid ++ ")"⟩,
             ⟨"CustomerDataAgent", "RouterAgent", "returned ticket history"⟩],
            st.chunks ++ [refSummarizeTickets (o.get_history cid)],
            st.calls ++ [.getHistory cid]⟩)
      else if action.eqStr "create_ticket" then do
        let rawId ← getArg args "id" .vnull
        match parseCustomerId rawId with
        | .raise e => .error e
        | .invalid =>
          .ok (.cont ⟨st.messages ++
            [⟨"RouterAgent", "CustomerDataAgent",
              "Attempted create_ticket without a valid numeric ID – step skipped"⟩],
            st.chunks ++ ["Could not create a ticket because the customer ID was not valid."],
            st.calls⟩)
        | .valid cid => do
          let issue ← getArg args "issue" (.vstr "")
          let issue := pyOrDefault issue (.vstr "")
          let pri ← getArg args "priority" (.vstr "medium")
          let pri := pyOrDefault pri (.vstr "medium")
          .ok (.cont ⟨st.messages ++
            [⟨"RouterAgent", "CustomerDataAgent",
              "create_ticket(id=" ++ toString cid ++ ", issue=\x27" ++ pyStr issue ++
                "\x27, priority=\x27" ++ pyStr pri ++ "\x27)"⟩,
             ⟨"CustomerDataAgent", "RouterAgent", "ticket created"⟩],
            st.chunks ++
              ["Created a " ++ pyStr pri ++ " priority ticket for customer " ++
                toString cid ++ ": " ++ pyStr issue],
            st.calls ++ [.createTicket cid issue pri]⟩)
      else if action.eqStr "list_customers" then do
        let status ← getArg args "status" .vnull
        let limitV ← getArg args "limit" (.vint 20)
        let customers := o.list_customers (pyOrDefault status (.vstr "active"))
          (pyIntIsinst limitV 20)
        .ok (.cont ⟨st.messages ++
          [⟨"RouterAgent", "CustomerDataAgent",
            "list_customers(status=" ++ pyStr status ++ ", limit=" ++ pyStr limitV ++ ")"⟩,
           ⟨"CustomerDataAgent", "RouterAgent", "returned customer list"⟩],
          st.chunks ++ [refSummarizeCustomers customers status],
          st.calls ++ [.listCustomers (pyOrDefault status (.vstr "active")) (pyIntIsinst limitV 20)]⟩)
      else if action.eqStr "dynamic" then do
        let rawQuery ← getArg args "query" .vnull
        let rawQuery := pyOrDefault rawQuery (.vstr query)
        let dataResult := o.handle_query rawQuery
        .ok (.cont ⟨st.messages ++
          [⟨"RouterAgent", "CustomerDataAgent",
            "handle_query(query=" ++ pyRepr rawQuery ++ ")"⟩,
           ⟨"CustomerDataAgent", "RouterAgent", "executed dynamic MCP plan via LLM"⟩],
          st.chunks ++ ["Dynamic data workflow results: " ++ pyStr dataResult],
          st.calls ++ [.handleQuery rawQuery]⟩)
      else
        .ok (.cont ⟨st.messages ++
          [⟨"RouterAgent", "CustomerDataAgent",
            "Unknown data action \x27" ++ pyStr action ++ "\x27 – step ignored"⟩],
          st.chunks ++
            ["(Router skipped unknown data action \x27" ++ pyStr action ++ "\x27.)"],
          st.calls⟩)
    else if agent.eqStr "support" then
      if action.eqStr "final_answer" then
        let msgs := st.messages ++
          [⟨"RouterAgent", "SupportAgent", "build_final_answer(parts)"⟩]
        let msgs := msgs ++
          [⟨"SupportAgent", "RouterAgent", "returned final user answer"⟩]
        .ok (.done ⟨msgs, st.chunks, st.calls⟩ (refBuildFinalAnswer st.chunks))
      else
        .ok (.cont ⟨st.messages ++
          [⟨"RouterAgent", "SupportAgent",
            "Unknown support action \x27" ++ pyStr action ++ "\x27 – step ignored"⟩],
          st.chunks ++
            ["(Router skipped unknown support action \x27" ++ pyStr action ++ "\x27.)"],
          st.calls⟩)
    else
      .ok (.cont ⟨st.messages ++
        [⟨"RouterAgent", "Unknown",
          "Unknown agent \x27" ++ pyStr agent ++ "\x27 – step ignored"⟩],
        st.chunks ++ ["(Router skipped unknown agent \x27" ++ pyStr agent ++ "\x27.)"],
        st.calls⟩)
  | _ => .error "AttributeError: get"

/-- Result of the reference `RouterAgent.run`: the final answer, the trace
(`log` and `state.messages` are the same list) and the instrumentation log
of capability calls. -/
structure RefResult where
  answer : String
  log : List TraceEntry
  calls : List RefCall

/-- The step loop plus the fallback completion of the reference
`RouterAgent.run`: execute the steps in order; a `final_answer` step returns
from the loop; if the list runs out without such a step, append the two
fallback trace entries and build the answer directly from the accumulated
fragments. -/
def refRunSteps (o : RefOracle) (query : String) :
    RefState → List Value → Except String RefResult
  | st, [] =>
    .ok ⟨refBuildFinalAnswer st.chunks,
      st.messages ++
        [⟨"RouterAgent", "SupportAgent",
          "no explicit final_answer step; building answer directly"⟩,
         ⟨"SupportAgent", "RouterAgent", "returned final user answer (fallback)"⟩],
      st.calls⟩
  | st, step :: rest =>
    match refStep o query st step with
    | .error e => .error e
    | .ok (.cont st') => refRunSteps o query st' rest
    | .ok (.done st' ans) => .ok ⟨ans, st'.messages, st'.calls⟩

/-- The plan-shape validation of the reference `RouterAgent.run`
(`if not plan or "steps" not in plan or not isinstance(plan["steps"], list)`):
`ok (some steps)` for a well-formed plan, `ok none` for the graceful
PlanningFailure return, and `error` where the Python expression itself
raises `TypeError` — `"steps" not in plan` on a truthy `int`/`bool`, and
`plan["steps"]` on a truthy string containing `"steps"` or a list
containing the element `"steps"` (Python `in` is substring containment on
strings and element equality on lists). -/
def refPlanSteps (plan : Value) : Except String (Option (List Value)) :=
  if !plan.truthy then
    .ok none
  else
    match plan with
    | .vobj kvs =>
      match lookupPairs kvs "steps" with
      | some (.vlist xs) => .ok (some xs)
      | _ => .ok none
    | .vstr s =>
      if strContains s "steps" then
        .error "TypeError: string indices must be integers"
      else .ok none
    | .vlist xs =>
      if xs.any (fun v => v.eqStr "steps") then
        .error "TypeError: list indices must be integers or slices, not str"
      else .ok none
    | _ => .error "TypeError: argument of type is not iterable"

/-- The reference `RouterAgent.run`: validate the planner output
(`plan` stands for the `ask_llm_json` result); on graceful validation
failure return immediately with the explanatory answer and `"log": []` —
this is the sole fast-failure path; a `TypeError` raised by the validation
expression itself propagates; otherwise execute the plan. -/
def refRun (o : RefOracle) (query : String) (plan : Value) : Except String RefResult :=
  match refPlanSteps plan with
  | .error e => .error e
  | .ok none =>
    .ok ⟨"Router did not produce a valid plan: " ++ pyStr plan, [], []⟩
  | .ok (some steps) => refRunSteps o query ⟨[], [], []⟩ steps

/-!
### `update_customer` (`mcp_server/db_access.py`, lines 41–75)

The customers table is modeled as a list of rows; a row is its `id` column
plus a field map for the remaining columns. The SQL `UPDATE ... WHERE id = ?`
affects every row with the given id (ids are unique in practice; the model
does not assume it), and the subsequent `SELECT` picks the first such row.
-/

/-- One row of the `customers` table: the `id` column and the other columns
as a field map. -/
structure CustomerRow where
  id : Int
  fields : List (String × Value)

/-- The allowed update columns of `update_customer`. -/
def allowedUpdateFields : List String := ["name", "email", "phone", "status"]

/-- Set one column of a row's field map (replace the first binding or
append). -/
def setField : List (String × Value) → String → Value → List (String × Value)
  | [], k, v => [(k, v)]
  | (k', v') :: fs, k, v =>
    if k' = k then (k, v) :: fs else (k', v') :: setField fs k v

/-- Apply the filtered `SET` assignments to one row. -/
def applyFields (row : CustomerRow) (fields : List (String × Value)) : CustomerRow :=
  ⟨row.id, fields.foldl (fun fs kv => setField fs kv.1 kv.2) row.fields⟩

/-- The `SET` assignments kept by the allowed-keys loop of
`update_customer`. -/
def validUpdateFields (data : List (String × Value)) : List (String × Value) :=
  data.filter (fun kv => allowedUpdateFields.contains kv.1)

/-- The table after `UPDATE customers SET ... WHERE id = ?`: every row with
the given id receives the assignments. -/
def updatedTable (db : List CustomerRow) (cid : Int)
    (fields : List (String × Value)) : List CustomerRow :=
  db.map (fun row => if row.id = cid then applyFields row fields else row)

/-- Model of `update_customer(customer_id, data)`: keep only the allowed keys of
`data`; raise `ValueError("No valid update fields.")` when none remain;
otherwise run the `UPDATE`, re-select the row, and raise
`ValueError("Customer not found.")` when no row has the id. Returns the
updated table together with the re-selected row. -/
def updateCustomer (db : List CustomerRow) (cid : Int)
    (data : List (String × Value)) : Except String (List CustomerRow × CustomerRow) :=
  if (validUpdateFields data).isEmpty then
    .error "No valid update fields."
  else
    match (updatedTable db cid (validUpdateFields data)).find?
        (fun row => row.id == cid) with
    | none => .error "Customer not found."
    | some row => .ok (updatedTable db cid (validUpdateFields data), row)

/-!
### Deterministic fallback classifier

Modelled from the spec: the pure pattern-matching classifier of §4.3 (the
alternate Planner used when no generative planner is available) is not
present under `src/` — only the five scenario queries in `tests/main.py`
witness it. Following §4.3 and §9, it is an explicit ordered list of
(predicate, scenario) pairs matched by priority — aggregate keyword, then
escalation keyword, then update+email, then account help, then the
"simple lookup" default — with a numeric identifier extracted as the first
bare integer token and an email as a `local@domain` token. The concrete
keyword sets are illustrative (the spec names the categories, not the
words); the stated properties concern totality, the priority order, and
graceful handling of a missing identifier.
-/

/-- The five scenarios of §4.3. -/
inductive Scenario where
  | aggregate
  | escalation
  | updateHistory
  | accountHelp
  | simpleLookup
  deriving DecidableEq, Repr

/-- Split a request into whitespace-separated tokens (kernel-reducible). -/
def wordsAux : List Char → List Char → List String
  | [], acc => if acc.isEmpty then [] else [String.mk acc.reverse]
  | c :: cs, acc =>
    if c = ' ' then
      if acc.isEmpty then wordsAux cs []
      else String.mk acc.reverse :: wordsAux cs []
    else wordsAux cs (c :: acc)

/-- The whitespace-separated tokens of a request string. -/
def tokensOf (s : String) : List String :=
  wordsAux s.data []

/-- The request contains the given bare word. -/
def containsWord (req w : String) : Bool :=
  (tokensOf req).contains w

/-- First bare integer token of the request, if any (§4.3: "a numeric
identifier via first bare integer token"). -/
def extractId (req : String) : Option Nat :=
  (tokensOf req).findSome? (fun t => digitsToNat t.data)

/-- Split a character list at a separator character, keeping empty pieces. -/
def chSplit (sep : Char) : List Char → List (List Char)
  | [] => [[]]
  | c :: cs =>
    let rest := chSplit sep cs
    if c = sep then [] :: rest
    else
      match rest with
      | [] => [[c]]
      | p :: ps => (c :: p) :: ps

/-- A token of the shape `local@domain` with both sides non-empty (§4.3:
"an email address via standard local@domain pattern"). -/
def isEmailToken (w : String) : Bool :=
  match chSplit '@' w.data with
  | [l, d] => !(l.isEmpty) && !(d.isEmpty)
  | _ => false

/-- The request contains an email address token. -/
def hasEmail (req : String) : Bool :=
  (tokensOf req).any isEmailToken

/-- Aggregate-keyword predicate (multi-step aggregate scenario). -/
def aggregateKeyword (req : String) : Bool :=
  containsWord req "all" || containsWord req "every"

/-- Escalation-keyword predicate (negotiation/escalation scenario). -/
def escalationKeyword (req : String) : Bool :=
  containsWord req "charged" || containsWord req "refund" || containsWord req "cancel"

/-- Update-keyword predicate (half of the multi-intent update+history
scenario; the other half is an email token). -/
def updateKeyword (req : String) : Bool :=
  containsWord req "update"

/-- Account-help keyword predicate (task allocation / upgrade scenario). -/
def accountHelpKeyword (req : String) : Bool :=
  containsWord req "upgrade" || containsWord req "account"

/-- The explicit ordered (predicate, scenario) table of §9, in the priority
order fixed by §4.3. -/
def scenarioTable : List ((String → Bool) × Scenario) :=
  [(aggregateKeyword, .aggregate),
   (escalationKeyword, .escalation),
   (fun r => updateKeyword r && hasEmail r, .updateHistory),
   (accountHelpKeyword, .accountHelp)]

/-- First-match selection over a (predicate, scenario) table; the default
catch-all is the simple lookup. -/
def firstMatch : List ((String → Bool) × Scenario) → String → Scenario
  | [], _ => .simpleLookup
  | (p, s) :: rest, req => if p req then s else firstMatch rest req

/-- The deterministic fallback classifier: total, priority-ordered. -/
def classify (req : String) : Scenario :=
  firstMatch scenarioTable req

/-- The hand-authored fixed step sequence of each scenario, parameterized by
the extracted identifier; a missing identifier yields a clarifying-question
fragment instead of a data step (never a crash). -/
def scenarioFragments : Scenario → Option Nat → List String
  | .aggregate, _ =>
    ["list_customers(status=active, limit=20)", "final_answer()"]
  | .escalation, some n =>
    ["get_customer(id=" ++ toString n ++ ")",
     "create_ticket(id=" ++ toString n ++ ", priority=high)", "final_answer()"]
  | .escalation, none =>
    ["Could you share your customer ID so I can escalate this for you?"]
  | .updateHistory, some n =>
    ["update_customer(id=" ++ toString n ++ ")",
     "get_customer_history(id=" ++ toString n ++ ")", "final_answer()"]
  | .updateHistory, none =>
    ["Could you share your customer ID so I can update your record?"]
  | .accountHelp, some n =>
    ["get_customer(id=" ++ toString n ++ ")",
     "create_ticket(id=" ++ toString n ++ ", priority=medium)", "final_answer()"]
  | .accountHelp, none =>
    ["Could you share your customer ID so I can help with your account?"]
  | .simpleLookup, some n =>
    ["get_customer(id=" ++ toString n ++ ")", "final_answer()"]
  | .simpleLookup, none =>
    ["Could you share your customer ID so I can look that up?"]

/-- The fallback planner: classify, extract the identifier, and instantiate
the scenario's fixed sequence. -/
def fallbackPlan (req : String) : List String :=
  scenarioFragments (classify req) (extractId req)

/-!
### Concrete fixtures shared by counterexamples and witnesses
-/

/-- Trivial reference data oracle: every capability returns `None`. -/
def trivRefOracle : RefOracle :=
  ⟨fun _ => .vnull, fun _ _ => .vnull, fun _ => .vnull, fun _ _ _ => .vnull,
   fun _ _ => .vnull, fun _ => .vnull⟩

/-- The planner output of the §8 scenario: the `steps` value is not a list. -/
def planNotAList : Value := .vobj [("steps", .vstr "not-a-list")]

/-- A capability oracle whose every call raises. -/
def failOracle : ToolOracle := fun _ _ => .error "MCP capability call failed"

/-- A capability oracle whose every call succeeds. -/
def okOracle : ToolOracle := fun _ _ => .ok (.vobj [("ok", .vbool true)])

/-- A single valid tool step for the active data agent. -/
def toolStepOne : Value :=
  .vobj [("tool", .vstr "get_customer"),
    ("args", .vobj [("customer_id", .vint 5)])]

/-- A data-agent plan with exactly one valid tool step and a note. -/
def dataPlanOne : Value :=
  .vobj [("steps", .vlist [toolStepOne]), ("note", .vstr "did a lookup")]

/-- A router delegation decision requesting a data call. -/
def routerPlanNeedData : Value := .vobj [("need_data", .vbool true)]

/-!
### C7 — the Response capability's terminating operation is total
-/

/-- C7: the reference `SupportAgent.build_final_answer` succeeds for every
fragment list: when every fragment is the empty string (in particular for the
empty list) it returns the canned no-information message instead of failing,
and otherwise it returns the newline-join of the non-empty fragments. -/
theorem c7_respond_total (parts : List String) :
    ((∀ p ∈ parts, p = "") →
      refBuildFinalAnswer parts =
        "I could not find any relevant information for your request.") ∧
    ((∃ p ∈ parts, p ≠ "") →
      refBuildFinalAnswer parts =
        String.intercalate "\n" (cleanedParts parts)) := by
  constructor
  · intro h
    have hnil : cleanedParts parts = [] := by
      simp only [cleanedParts, List.filter_eq_nil_iff]
      intro a ha
      simp [h a ha]
    simp only [refBuildFinalAnswer]
    rw [hnil]
    rfl
  · rintro ⟨p, hp, hne⟩
    have hmem : p ∈ cleanedParts parts := by
      simp only [cleanedParts, List.mem_filter]
      exact ⟨hp, by simp [hne]⟩
    have hfalse : (cleanedParts parts).isEmpty = false := by
      cases hfe : cleanedParts parts with
      | nil => rw [hfe] at hmem; cases hmem
      | cons a l => simp
    simp only [refBuildFinalAnswer]
    rw [if_neg (by simp [hfalse])]

/-- Witness for C7 at the all-empty fragment list. -/
theorem c7_witness :
    refBuildFinalAnswer ["", ""] =
      "I could not find any relevant information for your request." :=
  (c7_respond_total ["", ""]).1 (by decide)

/-!
### C10 — `update_customer` error behaviour and ignored keys
-/

/-- Setting one key of a field map leaves every other key unchanged. -/
theorem lookupPairs_setField_ne (fs : List (String × Value)) (k' k : String)
    (v : Value) (h : k' ≠ k) :
    lookupPairs (setField fs k' v) k = lookupPairs fs k := by
  induction fs with
  | nil => simp [setField, lookupPairs, h]
  | cons kv fs ih =>
    obtain ⟨k0, v0⟩ := kv
    by_cases h0 : k0 = k'
    · subst h0
      simp [setField, lookupPairs, h]
    · simp only [setField, if_neg h0, lookupPairs]
      by_cases h1 : k0 = k <;> simp [h1, ih]

/-- Folding assignments whose keys all differ from `k` leaves `k`
unchanged. -/
theorem lookupPairs_foldl_setField (fields : List (String × Value)) (k : String)
    (h : ∀ kv ∈ fields, kv.1 ≠ k) (fs0 : List (String × Value)) :
    lookupPairs (fields.foldl (fun fs kv => setField fs kv.1 kv.2) fs0) k =
      lookupPairs fs0 k := by
  induction fields generalizing fs0 with
  | nil => rfl
  | cons kv fields ih =>
    rw [List.foldl_cons, ih (fun kv' h' => h kv' (List.mem_cons_of_mem _ h')),
      lookupPairs_setField_ne _ _ _ _ (h kv (List.mem_cons_self _ _))]

/-- C10: `update_customer` raises `ValueError("No valid update fields.")`
when no key of the supplied mapping is among `name`, `email`, `phone`,
`status`; raises `ValueError("Customer not found.")` when a valid field is
supplied but no row has the given id; and on success it never writes a key
outside the allowed set — every row keeps its id and its value at every
non-allowed key. -/
theorem c10_update_customer :
    (∀ db cid data, (∀ kv ∈ data, kv.1 ∉ allowedUpdateFields) →
      updateCustomer db cid data = .error "No valid update fields.") ∧
    (∀ db cid data,
      (∃ kv ∈ data, kv.1 ∈ allowedUpdateFields) →
      (∀ row ∈ db, row.id ≠ cid) →
      updateCustomer db cid data = .error "Customer not found.") ∧
    (∀ db cid data db' row, updateCustomer db cid data = .ok (db', row) →
      ∀ k, k ∉ allowedUpdateFields →
      ∀ i r r', db.get? i = some r → db'.get? i = some r' →
        r'.id = r.id ∧ lookupPairs r'.fields k = lookupPairs r.fields k) := by
  refine ⟨?_, ?_, ?_⟩
  · intro db cid data h
    have hnil : validUpdateFields data = [] := by
      simp only [validUpdateFields, List.filter_eq_nil_iff]
      intro kv hkv
      simp [h kv hkv]
    simp only [updateCustomer]
    rw [hnil]
    rfl
  · rintro db cid data ⟨kv, hkv, hall⟩ hno
    have hmem : kv ∈ validUpdateFields data := by
      simp only [validUpdateFields, List.mem_filter]
      exact ⟨hkv, by simp [hall]⟩
    have hfalse : (validUpdateFields data).isEmpty = false := by
      cases hfe : validUpdateFields data with
      | nil => rw [hfe] at hmem; cases hmem
      | cons a l => simp
    have hfind :
        (updatedTable db cid (validUpdateFields data)).find?
          (fun row => row.id == cid) = none := by
      rw [List.find?_eq_none]
      intro x hx
      obtain ⟨r, hr, rfl⟩ := List.mem_map.mp hx
      have hne := hno r hr
      simp [if_neg hne, hne]
    simp only [updateCustomer]
    rw [if_neg (by simp [hfalse]), hfind]
  · intro db cid data db' row h k hk i r r' hi hi'
    have hkeys : ∀ kv ∈ validUpdateFields data, kv.1 ≠ k := by
      intro kv hkv hkk
      have hin := (List.mem_filter.mp hkv).2
      rw [hkk] at hin
      simp [hk] at hin
    revert h
    simp only [updateCustomer]
    split
    · intro h; cases h
    · split
      · intro h; cases h
      · intro h
        have hdb : db' = updatedTable db cid (validUpdateFields data) := by
          cases h
          rfl
        subst hdb
        rw [updatedTable, List.get?_map, hi, Option.map_some'] at hi'
        by_cases hid : r.id = cid
        · rw [if_pos hid] at hi'
          cases hi'.symm
          exact ⟨rfl, lookupPairs_foldl_setField _ _ hkeys _⟩
        · rw [if_neg hid] at hi'
          cases hi'.symm
          exact ⟨rfl, rfl⟩

/-- Witness for C10 at a concrete table and a mapping with no valid key. -/
theorem c10_witness :
    updateCustomer [⟨1, [("email", .vstr "a@b.c")]⟩] 1 [("hacker", .vstr "x")] =
      .error "No valid update fields." :=
  c10_update_customer.1 _ _ _ (by decide)

/-!
### C9 — deterministic fallback classifier (modelled from the spec)
-/

/-- C9: the fallback classifier is total with the fixed priority order —
aggregate keyword, then escalation keyword, then update+email, then account
help, with the simple lookup as default catch-all — and for every request
(in particular one with no extractable numeric identifier) the instantiated
scenario plan is non-empty, never a crash. -/
theorem c9_classifier_total_priority (req : String) :
    (classify req =
      if aggregateKeyword req then .aggregate
      else if escalationKeyword req then .escalation
      else if updateKeyword req && hasEmail req then .updateHistory
      else if accountHelpKeyword req then .accountHelp
      else .simpleLookup) ∧
    1 ≤ (fallbackPlan req).length := by
  constructor
  · rfl
  · unfold fallbackPlan
    cases classify req <;> cases extractId req <;> simp [scenarioFragments]

/-!
### C2 — the PlanningFailure fast path
-/

/-- Counterexample for C2: on the §8 input `\x7b"steps": "not-a-list"\x7d`
the plan-driven reference `RouterAgent.run` returns a trace of length 0, not
the claimed length 1 — no receipt entry is recorded before plan validation. -/
theorem c2_counterexample :
    (refRun trivRefOracle "Get customer information for ID 5" planNotAList).map
        (fun r => r.log.length) = Except.ok 0 ∧
      (Except.ok 0 : Except String Nat) ≠ Except.ok 1 := by
  refine ⟨rfl, ?_⟩
  simp

/-- C2 as amended: when the planner response fails the shape validation
gracefully (the validation expression itself can instead raise `TypeError`
on truthy non-dict responses — see `refPlanSteps`), the reference
`RouterAgent.run` treats it as PlanningFailure and returns immediately with
an answer stating the plan could not be produced, an empty trace (length
exactly 0 — the reference implementation records no initial receipt entry),
and no step executed (no capability call). -/
theorem c2_amended (o : RefOracle) (query : String) (plan : Value)
    (h : refPlanSteps plan = .ok none) :
    refRun o query plan =
      .ok ⟨"Router did not produce a valid plan: " ++ pyStr plan, [], []⟩ := by
  simp [refRun, h]

/-- Witness for C2 (amended) at the §8 input. -/
theorem c2_witness :
    refRun trivRefOracle "Get customer information for ID 5" planNotAList =
      .ok ⟨"Router did not produce a valid plan: " ++ pyStr planNotAList, [], []⟩ :=
  c2_amended trivRefOracle "Get customer information for ID 5" planNotAList rfl

/-!
### C4 — identifier coercion and the invalid-id path
-/

/-- A step whose executor outcome is `cont` lets the loop proceed with the
subsequent steps from the extended state. -/
theorem refRunSteps_cons_cont (o : RefOracle) (q : String) (st st' : RefState)
    (step : Value) (rest : List Value)
    (h : refStep o q st step = .ok (.cont st')) :
    refRunSteps o q st (step :: rest) = refRunSteps o q st' rest := by
  simp [refRunSteps, h]

/-- Reduction of a successful bind in the `Except` monad. -/
theorem bindOkReduce {α β ε : Type} (a : α) (f : α → Except ε β) :
    ((Except.ok a : Except ε α) >>= f) = f a := rfl

/-- The allowed (agent, action) dispatch set of the reference executor, read
off the branch structure of the reference `RouterAgent.run`. -/
def refKnownPair (agent action : Value) : Bool :=
  if agent.eqStr "data" then
    action.eqStr "get_customer" || action.eqStr "update_customer" ||
      action.eqStr "get_history" || action.eqStr "create_ticket" ||
      action.eqStr "list_customers" || action.eqStr "dynamic"
  else if agent.eqStr "support" then
    action.eqStr "final_answer"
  else false

/-- C5: a step (given as a dict, as the executor receives it) whose
(agent, action) pair is outside the allowed set — an unknown data action
such as `teleport`, an unknown support action, or an unknown agent — is a
no-op that still advances the trace: exactly one unknown-action fragment
and one trace entry are appended, no capability call is made, no exception
is raised, and execution continues with the subsequent steps. -/
theorem c5_unknown_step_noop (o : RefOracle) (q : String) (st : RefState)
    (kvs : List (String × Value)) (rest : List Value)
    (hk : refKnownPair (pyGet (.vobj kvs) "agent" .vnull)
      (pyGet (.vobj kvs) "action" .vnull) = false) :
    ∃ m c, refStep o q st (.vobj kvs) =
        .ok (.cont ⟨st.messages ++ [m], st.chunks ++ [c], st.calls⟩) ∧
      refRunSteps o q st (.vobj kvs :: rest) =
        refRunSteps o q ⟨st.messages ++ [m], st.chunks ++ [c], st.calls⟩ rest := by
  simp only [refKnownPair] at hk
  by_cases h1 : (pyGet (.vobj kvs) "agent" .vnull).eqStr "data" = true
  · rw [if_pos h1] at hk
    simp only [Bool.or_eq_false_iff, and_assoc] at hk
    obtain ⟨ha1, ha2, ha3, ha4, ha5, ha6⟩ := hk
    have hstep : refStep o q st (.vobj kvs) =
        .ok (.cont ⟨st.messages ++
          [⟨"RouterAgent", "CustomerDataAgent",
            "Unknown data action \x27" ++ pyStr (pyGet (.vobj kvs) "action" .vnull) ++
              "\x27 – step ignored"⟩],
          st.chunks ++
            ["(Router skipped unknown data action \x27" ++
              pyStr (pyGet (.vobj kvs) "action" .vnull) ++ "\x27.)"],
          st.calls⟩) := by
      simp [refStep, h1, ha1, ha2, ha3, ha4, ha5, ha6]
    exact ⟨_, _, hstep, refRunSteps_cons_cont _ _ _ _ _ _ hstep⟩
  · rw [if_neg h1] at hk
    rw [Bool.not_eq_true] at h1
    by_cases h2 : (pyGet (.vobj kvs) "agent" .vnull).eqStr "support" = true
    · rw [if_pos h2] at hk
      have hstep : refStep o q st (.vobj kvs) =
          .ok (.cont ⟨st.messages ++
            [⟨"RouterAgent", "SupportAgent",
              "Unknown support action \x27" ++ pyStr (pyGet (.vobj kvs) "action" .vnull) ++
                "\x27 – step ignored"⟩],
            st.chunks ++
              ["(Router skipped unknown support action \x27" ++
                pyStr (pyGet (.vobj kvs) "action" .vnull) ++ "\x27.)"],
            st.calls⟩) := by
        simp [refStep, h1, h2, hk]
      exact ⟨_, _, hstep, refRunSteps_cons_cont _ _ _ _ _ _ hstep⟩
    · rw [Bool.not_eq_true] at h2
      have hstep : refStep o q st (.vobj kvs) =
          .ok (.cont ⟨st.messages ++
            [⟨"RouterAgent", "Unknown",
              "Unknown agent \x27" ++ pyStr (pyGet (.vobj kvs) "agent" .vnull) ++
                "\x27 – step ignored"⟩],
            st.chunks ++
              ["(Router skipped unknown agent \x27" ++
                pyStr (pyGet (.vobj kvs) "agent" .vnull) ++ "\x27.)"],
            st.calls⟩) := by
        simp [refStep, h1, h2]
      exact ⟨_, _, hstep, refRunSteps_cons_cont _ _ _ _ _ _ hstep⟩

/-- Witness for C5 at the §8 step `(Data, teleport, empty args)`. -/
theorem c5_witness :
    ∃ m c, refStep trivRefOracle "q" ⟨[], [], []⟩
        (.vobj [("agent", .vstr "data"), ("action", .vstr "teleport"),
          ("args", .vobj [])]) =
        .ok (.cont ⟨[] ++ [m], [] ++ [c], []⟩) ∧
      refRunSteps trivRefOracle "q" ⟨[], [], []⟩
          (.vobj [("agent", .vstr "data"), ("action", .vstr "teleport"),
            ("args", .vobj [])] :: []) =
        refRunSteps trivRefOracle "q" ⟨[] ++ [m], [] ++ [c], []⟩ [] :=
  c5_unknown_step_noop trivRefOracle "q" ⟨[], [], []⟩
    [("agent", .vstr "data"), ("action", .vstr "teleport"), ("args", .vobj [])]
    [] (by rfl)

/-!
### C6 — fallback completion and the final trace entry
-/

/-- Reduction of a failing bind in the `Except` monad. -/
theorem bindErrReduce {α β ε : Type} (e : ε) (f : α → Except ε β) :
    ((Except.error e : Except ε α) >>= f) = .error e := rfl

/-- Reduction of `pure` in the `Except` monad. -/
theorem pureReduce {α ε : Type} (a : α) : (pure a : Except ε α) = Except.ok a := rfl

/-- Every executor branch only appends to the trace. -/
theorem refStep_messages_extend (o : RefOracle) (q : String) (st : RefState)
    (step : Value) (out : RefStepOut)
    (h : refStep o q st step = .ok out) :
    ∃ tail, out.state.messages = st.messages ++ tail := by
  rcases step with _ | b | n | s | xs | kvs
  case vnull => simp [refStep] at h
  case vbool => simp [refStep] at h
  case vint => simp [refStep] at h
  case vstr => simp [refStep] at h
  case vlist => simp [refStep] at h
  by_cases h1 : (pyGet (.vobj kvs) "agent" .vnull).eqStr "data" = true
  · by_cases a1 : (pyGet (.vobj kvs) "action" .vnull).eqStr "get_customer" = true
    · simp only [refStep, h1, a1, if_true] at h
      rcases hargs : argsOf (.vobj kvs) with _ | _ | _ | _ | _ | akvs <;>
        simp only [hargs, getArg, bindOkReduce, bindErrReduce] at h
      iterate 5 cases h
      revert h
      split <;> intro h <;>
        first
          | exact Except.noConfusion h
          | (simp only [Except.ok.injEq] at h; subst h; exact ⟨_, rfl⟩)
    · by_cases a2 : (pyGet (.vobj kvs) "action" .vnull).eqStr "update_customer" = true
      · simp only [refStep, h1, a1, a2, if_true, if_false, Bool.false_eq_true] at h
        rcases hargs : argsOf (.vobj kvs) with _ | _ | _ | _ | _ | akvs <;>
          simp only [hargs, getArg, bindOkReduce, bindErrReduce] at h
        iterate 5 cases h
        revert h
        split <;> intro h <;>
          first
            | exact Except.noConfusion h
            | (simp only [Except.ok.injEq] at h; subst h; exact ⟨_, rfl⟩)
      · by_cases a3 : (pyGet (.vobj kvs) "action" .vnull).eqStr "get_history" = true
        · simp only [refStep, h1, a1, a2, a3, if_true, if_false, Bool.false_eq_true] at h
          rcases hargs : argsOf (.vobj kvs) with _ | _ | _ | _ | _ | akvs <;>
            simp only [hargs, getArg, bindOkReduce, bindErrReduce] at h
          iterate 5 cases h
          revert h
          split <;> intro h <;>
            first
              | exact Except.noConfusion h
              | (simp only [Except.ok.injEq] at h; subst h; exact ⟨_, rfl⟩)
        · by_cases a4 : (pyGet (.vobj kvs) "action" .vnull).eqStr "create_ticket" = true
          · simp only [refStep, h1, a1, a2, a3, a4, if_true, if_false,
              Bool.false_eq_true] at h
            rcases hargs : argsOf (.vobj kvs) with _ | _ | _ | _ | _ | akvs <;>
              simp only [hargs, getArg, bindOkReduce, bindErrReduce] at h
            iterate 5 cases h
            revert h
            split <;> intro h <;>
              first
                | exact Except.noConfusion h
                | (simp only [Except.ok.injEq] at h; subst h; exact ⟨_, rfl⟩)
          · by_cases a5 : (pyGet (.vobj kvs) "action" .vnull).eqStr "list_customers" = true
            · simp only [refStep, h1, a1, a2, a3, a4, a5, if_true, if_false,
                Bool.false_eq_true] at h
              rcases hargs : argsOf (.vobj kvs) with _ | _ | _ | _ | _ | akvs <;>
                simp only [hargs, getArg, bindOkReduce, bindErrReduce] at h
              iterate 5 cases h
              simp only [Except.ok.injEq] at h
              subst h
              exact ⟨_, rfl⟩
            · by_cases a6 : (pyGet (.vobj kvs) "action" .vnull).eqStr "dynamic" = true
              · simp only [refStep, h1, a1, a2, a3, a4, a5, a6, if_true, if_false,
                  Bool.false_eq_true] at h
                rcases hargs : argsOf (.vobj kvs) with _ | _ | _ | _ | _ | akvs <;>
                  simp only [hargs, getArg, bindOkReduce, bindErrReduce] at h
                iterate 5 cases h
                simp only [Except.ok.injEq] at h
                subst h
                exact ⟨_, rfl⟩
              · simp only [refStep, h1, a1, a2, a3, a4, a5, a6, if_true, if_false,
                  Bool.false_eq_true, Except.ok.injEq] at h
                subst h
                exact ⟨_, rfl⟩
  · rw [Bool.not_eq_true] at h1
    by_cases h2 : (pyGet (.vobj kvs) "agent" .vnull).eqStr "support" = true
    · by_cases hA : (pyGet (.vobj kvs) "action" .vnull).eqStr "final_answer" = true
      · simp only [refStep, h1, h2, hA, if_true, if_false, Bool.false_eq_true,
          Except.ok.injEq] at h
        subst h
        rw [List.append_assoc]
        exact ⟨_, rfl⟩
      · simp only [refStep, h1, h2, hA, if_true, if_false, Bool.false_eq_true,
          Except.ok.injEq] at h
        subst h
        exact ⟨_, rfl⟩
    · rw [Bool.not_eq_true] at h2
      simp only [refStep, h1, h2, if_false, Bool.false_eq_true, Except.ok.injEq] at h
      subst h
      exact ⟨_, rfl⟩

/-- A step whose executor outcome is `done` makes the loop return the
answer with that state's trace. -/
theorem refRunSteps_cons_done (o : RefOracle) (q : String) (st st' : RefState)
    (step : Value) (rest : List Value) (ans : String)
    (h : refStep o q st step = .ok (.done st' ans)) :
    refRunSteps o q st (step :: rest) = .ok ⟨ans, st'.messages, st'.calls⟩ := by
  simp [refRunSteps, h]

/-- A step on which the executor raises propagates the exception out of the
loop. -/
theorem refRunSteps_cons_error (o : RefOracle) (q : String) (st : RefState)
    (step : Value) (rest : List Value) (e : String)
    (h : refStep o q st step = .error e) :
    refRunSteps o q st (step :: rest) = .error e := by
  simp [refRunSteps, h]

/-- The whole reference step loop only appends to the trace. -/
theorem refRunSteps_log_extend (o : RefOracle) (q : String) :
    ∀ (steps : List Value) (st : RefState) (res : RefResult),
    refRunSteps o q st steps = .ok res → ∃ tail, res.log = st.messages ++ tail := by
  intro steps
  induction steps with
  | nil =>
    intro st res h
    simp only [refRunSteps, Except.ok.injEq] at h
    subst h
    exact ⟨_, rfl⟩
  | cons s rest ih =>
    intro st res h
    rcases hs : refStep o q st s with e | out
    · rw [refRunSteps_cons_error o q st s rest e hs] at h
      cases h
    · rcases out with st' | ⟨st', ans⟩
      · rw [refRunSteps_cons_cont o q st st' s rest hs] at h
        obtain ⟨t2, ht2⟩ := ih st' res h
        obtain ⟨t1, ht1⟩ := refStep_messages_extend o q st s _ hs
        refine ⟨t1 ++ t2, ?_⟩
        rw [ht2]
        simp only [RefStepOut.state] at ht1
        rw [ht1, List.append_assoc]
      · rw [refRunSteps_cons_done o q st st' s rest ans hs] at h
        simp only [Except.ok.injEq] at h
        subst h
        obtain ⟨t1, ht1⟩ := refStep_messages_extend o q st s _ hs
        simp only [RefStepOut.state] at ht1
        exact ⟨t1, ht1⟩

/-- The active data agent only appends to the trace it receives. -/
theorem handle_messages_extend (oracle : ToolOracle) (dataPlan : Value)
    (userQuery : String) (msgs : List TraceEntry) (instr : String)
    (res : HandleResult)
    (h : handle oracle dataPlan userQuery msgs instr = .ok res) :
    ∃ tail, res.messages = msgs ++ tail := by
  simp only [handle] at h
  rcases hi : iterSteps (stepsOf (dictify dataPlan)) with e | steps
  · rw [hi, bindErrReduce] at h
    cases h
  · rw [hi, bindOkReduce] at h
    rcases he : execTools oracle steps with e | rc
    · rw [he, bindErrReduce] at h
      cases h
    · rw [he, bindOkReduce] at h
      obtain ⟨results, calls⟩ := rc
      simp only [Except.ok.injEq] at h
      subst h
      dsimp only
      split
      · exact ⟨_, rfl⟩
      · exact ⟨[], (List.append_nil _).symm⟩

/-- The active `RouterAgent.run`, when it returns, returns a trace headed by
the user receipt entry (everything after it was appended). -/
theorem run_log_receipt (routerPlan dataPlan : Value) (supportAnswer : String)
    (oracle : ToolOracle) (query : String) (res : RunResult)
    (h : run routerPlan dataPlan supportAnswer oracle query = .ok res) :
    ∃ tail, res.log = ⟨"User", "RouterAgent", query⟩ :: tail := by
  revert h
  simp only [run]
  by_cases hnd : (pyGet (dictify routerPlan) "need_data" (.vbool true)).truthy = true
  · simp only [hnd, if_true]
    cases hh : handle oracle dataPlan query
        ([⟨"User", "RouterAgent", query⟩] ++
          [⟨"RouterAgent", "CustomerDataAgent",
            if pyStrField (dictify routerPlan) "data_instruction" "" ≠ "" then
              pyStrField (dictify routerPlan) "data_instruction" ""
            else "Handle this user request using MCP tools."⟩])
        (if pyStrField (dictify routerPlan) "data_instruction" "" ≠ "" then
          pyStrField (dictify routerPlan) "data_instruction" "" else query) with
    | error e =>
      simp only [hh, bindErrReduce]
      intro h
      cases h
    | ok out =>
      simp only [hh, bindOkReduce, pureReduce]
      intro h
      simp only [Except.ok.injEq] at h
      subst h
      obtain ⟨t1, ht1⟩ := handle_messages_extend _ _ _ _ _ _ hh
      rw [ht1]
      simp only [List.cons_append, List.nil_append, List.append_assoc]
      exact ⟨_, rfl⟩
  · rw [if_neg hnd]
    simp only [pureReduce, bindOkReduce]
    intro h
    simp only [Except.ok.injEq] at h
    subst h
    simp only [List.cons_append, List.nil_append]
    exact ⟨_, rfl⟩

/-- C8: within one orchestration call the Trace Log is append-only — the
reference step executor and step loop, the active data agent, and the active
router each return a trace that extends their input trace by new entries at
the end only, preserving insertion order; the active run's returned trace is
the user-receipt entry followed by everything appended after it. -/
theorem c8_trace_append_only :
    (∀ (o : RefOracle) (q : String) (st : RefState) (step : Value)
        (out : RefStepOut), refStep o q st step = .ok out →
      ∃ tail, out.state.messages = st.messages ++ tail) ∧
    (∀ (o : RefOracle) (q : String) (steps : List Value) (st : RefState)
        (res : RefResult), refRunSteps o q st steps = .ok res →
      ∃ tail, res.log = st.messages ++ tail) ∧
    (∀ (oracle : ToolOracle) (dataPlan : Value) (userQuery : String)
        (msgs : List TraceEntry) (instr : String) (res : HandleResult),
      handle oracle dataPlan userQuery msgs instr = .ok res →
      ∃ tail, res.messages = msgs ++ tail) ∧
    (∀ (routerPlan dataPlan : Value) (supportAnswer : String)
        (oracle : ToolOracle) (query : String) (res : RunResult),
      run routerPlan dataPlan supportAnswer oracle query = .ok res →
      ∃ tail, res.log = ⟨"User", "RouterAgent", query⟩ :: tail) :=
  ⟨refStep_messages_extend,
   fun o q steps st res h => refRunSteps_log_extend o q steps st res h,
   handle_messages_extend,
   run_log_receipt⟩

/-- Witness for C8 at the unknown-agent step on the empty state. -/
theorem c8_witness :
    ∃ tail, (RefStepOut.state (RefStepOut.cont
        ⟨[⟨"RouterAgent", "Unknown",
            "Unknown agent \x27" ++ pyStr Value.vnull ++ "\x27 – step ignored"⟩],
          ["(Router skipped unknown agent \x27" ++ pyStr Value.vnull ++ "\x27.)"],
          []⟩)).messages = ([] : List TraceEntry) ++ tail :=
  c8_trace_append_only.1 trivRefOracle "q" ⟨[], [], []⟩ (.vobj []) _ rfl

/-!
### C1 — the orchestration entry point and error degradation
-/

/-- With a never-failing capability oracle the tool loop succeeds. -/
theorem execTools_ok (oracle : ToolOracle)
    (hok : ∀ t a, ∃ v, oracle t a = .ok v) :
    ∀ steps, ∃ rc, execTools oracle steps = .ok rc := by
  intro steps
  induction steps with
  | nil => exact ⟨([], []), rfl⟩
  | cons s rest ih =>
    obtain ⟨rc, hrc⟩ := ih
    rcases hs : stepToolArgs s with _ | ⟨t, a⟩
    · refine ⟨rc, ?_⟩
      simp only [execTools, hs]
      exact hrc
    · obtain ⟨v, hv⟩ := hok t a
      obtain ⟨recs, calls⟩ := rc
      refine ⟨(⟨t, a, v⟩ :: recs, ⟨t, a⟩ :: calls), ?_⟩
      simp only [execTools, hs]
      rw [hv, bindOkReduce, hrc, bindOkReduce]

/-- Counterexample for C1: with a capability oracle whose call raises, the
active `RouterAgent.run` does not degrade the failure into a result
fragment — the exception propagates and the call returns no
`(answer, trace)` result at all. -/
theorem c1_counterexample :
    run routerPlanNeedData dataPlanOne "final" failOracle
      "Get customer information for ID 5" =
      .error "MCP capability call failed" := rfl

/-- C1 as amended: for every request string and every (even malformed)
router plan — so planning failure does not short-circuit the active call;
a non-dict plan is degraded to the default delegation with
`need_data = True` — the active `RouterAgent.run` returns a well-formed
`(answer, trace)` result whose trace begins with the user-receipt entry,
provided every capability call succeeds and the data plan's `steps` value
is iterable; a failing capability call instead propagates as an exception
out of the call (see the counterexample). -/
theorem c1_run_returns (routerPlan dataPlan : Value) (supportAnswer : String)
    (oracle : ToolOracle) (query : String)
    (hok : ∀ t a, ∃ v, oracle t a = .ok v)
    (hiter : ∃ xs, iterSteps (stepsOf (dictify dataPlan)) = .ok xs) :
    ∃ tail, run routerPlan dataPlan supportAnswer oracle query =
      .ok ⟨supportAnswer, ⟨"User", "RouterAgent", query⟩ :: tail⟩ := by
  obtain ⟨xs, hxs⟩ := hiter
  obtain ⟨⟨results, calls⟩, hrc⟩ := execTools_ok oracle hok xs
  have hh : ∀ (msgs : List TraceEntry) (instr : String),
      ∃ out, handle oracle dataPlan query msgs instr = .ok out := by
    intro msgs instr
    refine ⟨⟨pyStrField (dictify dataPlan) "note" "", results,
        if pyStrField (dictify dataPlan) "note" "" ≠ "" then
          msgs ++ [⟨"CustomerDataAgent", "RouterAgent",
            pyStrField (dictify dataPlan) "note" ""⟩]
        else msgs, calls⟩, ?_⟩
    simp only [handle]
    rw [hxs, bindOkReduce, hrc, bindOkReduce]
  simp only [run]
  by_cases hnd : (pyGet (dictify routerPlan) "need_data" (.vbool true)).truthy = true
  · simp only [hnd, if_true]
    obtain ⟨out, hout⟩ := hh
        ([⟨"User", "RouterAgent", query⟩] ++
          [⟨"RouterAgent", "CustomerDataAgent",
            if pyStrField (dictify routerPlan) "data_instruction" "" ≠ "" then
              pyStrField (dictify routerPlan) "data_instruction" ""
            else "Handle this user request using MCP tools."⟩])
        (if pyStrField (dictify routerPlan) "data_instruction" "" ≠ "" then
          pyStrField (dictify routerPlan) "data_instruction" "" else query)
    obtain ⟨t1, ht1⟩ := handle_messages_extend _ _ _ _ _ _ hout
    simp only [hout, bindOkReduce, pureReduce]
    rw [ht1]
    simp only [List.cons_append, List.nil_append, List.append_assoc]
    exact ⟨_, rfl⟩
  · rw [if_neg hnd]
    simp only [pureReduce, bindOkReduce]
    simp only [List.cons_append, List.nil_append]
    exact ⟨_, rfl⟩

/-- Witness for C1 (amended) with an always-succeeding oracle. -/
theorem c1_witness :
    ∃ tail, run routerPlanNeedData dataPlanOne "final" okOracle "hello" =
      .ok ⟨"final", ⟨"User", "RouterAgent", "hello"⟩ :: tail⟩ :=
  c1_run_returns routerPlanNeedData dataPlanOne "final" okOracle "hello"
    (fun t a => ⟨_, rfl⟩) ⟨_, rfl⟩

/-!
### C3 — exactly one capability call per validated step
-/

/-- With a capability oracle that responds `f t a` to every call, the tool
loop makes exactly one capability call per surviving step, in step order,
never retried: the invocation log is exactly the surviving steps' (tool,
args) pairs, and the recorded results pair each of those single calls with
the oracle's one response to it. -/
theorem execTools_spec (oracle : ToolOracle) (f : Value → Value → Value)
    (hok : ∀ t a, oracle t a = .ok (f t a)) :
    ∀ steps, execTools oracle steps =
      .ok ((steps.filterMap stepToolArgs).map
          (fun p => (⟨p.1, p.2, f p.1 p.2⟩ : ToolRecord)),
        (steps.filterMap stepToolArgs).map
          (fun p => (⟨p.1, p.2⟩ : ToolCall))) := by
  intro steps
  induction steps with
  | nil => rfl
  | cons s rest ih =>
    rcases hs : stepToolArgs s with _ | ⟨t, a⟩
    · simp only [execTools, hs, List.filterMap_cons]
      exact ih
    · simp only [execTools, hs, List.filterMap_cons, List.map_cons]
      rw [hok t a, bindOkReduce, ih, bindOkReduce]

/-- Counterexample for C3: the failure of the single capability call of a
validated step is not caught and converted into a fragment — it propagates
as an exception out of `CustomerDataAgent.handle` (and hence out of the
orchestration call). -/
theorem c3_counterexample :
    handle failOracle dataPlanOne "q" [] "instr" =
      .error "MCP capability call failed" := rfl

/-- C3 as amended: for every validated Data step the active executor
performs exactly one external capability call — the invocation log equals
the validated steps in order, with one entry per step and no retry, and the
recorded results pair each validated step with the single response the
capability gave to its one call; a failing capability call, however, is NOT
caught: the exception propagates out of the orchestration call (see the
counterexample) instead of being converted into an explanatory fragment. -/
theorem c3_single_call (oracle : ToolOracle) (f : Value → Value → Value)
    (hok : ∀ t a, oracle t a = .ok (f t a)) (dataPlan : Value)
    (userQuery : String) (msgs : List TraceEntry) (instr : String)
    (steps : List Value)
    (hiter : iterSteps (stepsOf (dictify dataPlan)) = .ok steps) :
    ∃ res, handle oracle dataPlan userQuery msgs instr = .ok res ∧
      res.results = (steps.filterMap stepToolArgs).map
        (fun p => (⟨p.1, p.2, f p.1 p.2⟩ : ToolRecord)) ∧
      res.calls = (steps.filterMap stepToolArgs).map
        (fun p => (⟨p.1, p.2⟩ : ToolCall)) := by
  refine ⟨⟨pyStrField (dictify dataPlan) "note" "",
      (steps.filterMap stepToolArgs).map (fun p => ⟨p.1, p.2, f p.1 p.2⟩),
      if pyStrField (dictify dataPlan) "note" "" ≠ "" then
        msgs ++ [⟨"CustomerDataAgent", "RouterAgent",
          pyStrField (dictify dataPlan) "note" ""⟩]
      else msgs,
      (steps.filterMap stepToolArgs).map (fun p => ⟨p.1, p.2⟩)⟩, ?_, rfl, rfl⟩
  simp only [handle]
  rw [hiter, bindOkReduce, execTools_spec oracle f hok steps, bindOkReduce]

/-- Witness for C3 (amended) at the one-step plan. -/
theorem c3_witness :
    ∃ res, handle okOracle dataPlanOne "q" [] "instr" = .ok res ∧
      res.results = (([toolStepOne] : List Value).filterMap stepToolArgs).map
        (fun p => (⟨p.1, p.2, .vobj [("ok", .vbool true)]⟩ : ToolRecord)) ∧
      res.calls = (([toolStepOne] : List Value).filterMap stepToolArgs).map
        (fun p => (⟨p.1, p.2⟩ : ToolCall)) :=
  c3_single_call okOracle (fun _ _ => .vobj [("ok", .vbool true)])
    (fun _ _ => rfl) dataPlanOne "q" [] "instr" [toolStepOne] rfl

end CustomerService
